import Mathlib

/-!
# vermilion: a minimal KVM virtual machine monitor

A shallow embedding of `src/main.c` and `src/kvm.c`.

* Guest memory (`void* mem`) is a byte-addressed map from the offset relative to the
  pointer to the byte stored there.  As in C, no access is bounds checked.
* Machine integers are natural numbers, reduced modulo `2 ^ w` wherever the C code
  narrows or wraps a value.
* The hypervisor is an external collaborator: every `ioctl` is recorded in a log and
  its return value is taken from the environment.
* `err(1, ...)` ends the process; it is the error case of `Except`, which keeps the
  world the process ended in.
* `malloc` and `mmap` are taken to succeed; the program does not test their results.
-/

namespace Vermilion

/-! ## Constants of `main.c` -/

def COM1_PORT : Nat := 0x03F8
def BOOT_PARAMS_ADDR : Nat := 0x00007000
def CMDLINE_ADDR : Nat := 0x00020000
def KERNEL_ADDR : Nat := 0x00200000
def MEMORY_SIZE : Nat := 0x40000000

/-! ## Constants of the system headers included by `main.c`

`<asm/bootparam.h>`, `<asm/e820.h>`, `<linux/serial_reg.h>` and `<linux/kvm.h>` are not
part of the repository; the values below are the ones of the Linux x86 user API. -/

/-- The value of `sizeof(struct boot_params)`: the zero page is one 4 KiB page. -/
def SIZEOF_BOOT_PARAMS : Nat := 4096
/-- The value of `offsetof(struct boot_params, e820_entries)`. -/
def OFF_E820_ENTRIES : Nat := 0x1E8
/-- The value of `offsetof(struct boot_params, hdr.setup_sects)`. -/
def OFF_SETUP_SECTS : Nat := 0x1F1
/-- The value of `offsetof(struct boot_params, hdr.type_of_loader)`. -/
def OFF_TYPE_OF_LOADER : Nat := 0x210
/-- The value of `offsetof(struct boot_params, hdr.ramdisk_image)`. -/
def OFF_RAMDISK_IMAGE : Nat := 0x218
/-- The value of `offsetof(struct boot_params, hdr.ramdisk_size)`. -/
def OFF_RAMDISK_SIZE : Nat := 0x21C
/-- The value of `offsetof(struct boot_params, hdr.ext_loader_ver)`. -/
def OFF_EXT_LOADER_VER : Nat := 0x226
/-- The value of `offsetof(struct boot_params, hdr.cmd_line_ptr)`. -/
def OFF_CMD_LINE_PTR : Nat := 0x228
/-- The value of `offsetof(struct boot_params, hdr.cmdline_size)`. -/
def OFF_CMDLINE_SIZE : Nat := 0x238
/-- The value of `offsetof(struct boot_params, e820_table)`. -/
def OFF_E820_TABLE : Nat := 0x2D0
/-- Offsets of the members of the packed `struct boot_e820_entry`
(`__u64 addr; __u64 size; __u32 type;`). -/
def OFF_E820_ADDR : Nat := 0
def OFF_E820_SIZE : Nat := 8
def OFF_E820_TYPE : Nat := 16
def E820_RAM : Nat := 1

def UART_TX : Nat := 0
def UART_LSR : Nat := 5
def UART_LSR_THRE : Nat := 0x20

def KVM_EXIT_IO : Nat := 2
def KVM_EXIT_IO_IN : Nat := 0
def KVM_EXIT_IO_OUT : Nat := 1

/-- The constant `MAX_CPUID_ENTRIES` of `kvm.c`. -/
def MAX_CPUID_ENTRIES : Nat := 128

/-! ## Bytes and memory -/

/-- Host memory seen through a pointer: the byte stored at each offset from it. -/
abbrev Mem := Nat → Nat

/-- Read of a `__u8` object. -/
def load8 (mem : Mem) (a : Nat) : Nat := mem a % 256

/-- Little-endian read of an unsigned object of `n` bytes. -/
def loadLE (mem : Mem) (a : Nat) : Nat → Nat
  | 0 => 0
  | n + 1 => load8 mem a + 256 * loadLE mem (a + 1) n

/-- Write of a `__u8` object: the value is narrowed to eight bits. -/
def store8 (mem : Mem) (a v : Nat) : Mem :=
  fun x => if x = a then v % 256 else mem x

/-- Little-endian write of an unsigned object of `n` bytes: the value is narrowed to
`8 * n` bits. -/
def storeLE (mem : Mem) (a v : Nat) : Nat → Mem
  | 0 => mem
  | n + 1 => storeLE (store8 mem a v) (a + 1) (v / 256) n

/-- The library call `memcpy(dst, src, n)`, where `src` gives the source bytes by their
offset from the source pointer. -/
def memcpy (mem : Mem) (dst : Nat) (src : Nat → Nat) (n : Nat) : Mem :=
  fun x => if dst ≤ x ∧ x < dst + n then src (x - dst) % 256 else mem x

/-- A C string: the bytes at the pointer; the terminating NUL follows the last one. -/
abbrev CString := List Nat

/-- The library call `strlen`: the number of bytes before the first NUL. -/
def strlen : CString → Nat
  | [] => 0
  | b :: bs => if b % 256 = 0 then 0 else strlen bs + 1

/-- The bytes of a C string by offset; the terminator and what follows read as 0. -/
def CString.byte (s : CString) (i : Nat) : Nat := s.getD i 0 % 256

/-- A file mapped by `mmap`: the value of `st.st_size`, and what is read at each offset
from the pointer `image`; the offsets from `size` on lie past the end of the file. -/
structure Image where
  size : Nat
  data : Nat → Nat

/-- The byte at an offset of the mapping. -/
def Image.byte (img : Image) (i : Nat) : Nat := img.data i % 256

/-- The process ends through `err(status, msg)`. -/
structure Fatal where
  status : Nat
  msg : String
deriving Repr, DecidableEq

/-! ## The boot image loader and the boot parameters writer (`main.c`) -/

/-- The field `params->hdr.setup_sects`, a `__u8`. -/
def setup_sects (mem : Mem) : Nat := load8 mem (BOOT_PARAMS_ADDR + OFF_SETUP_SECTS)

/-- The local `setupSize` of `loadBzImage`: `(params->hdr.setup_sects + 1) * 512`,
computed in `int` and converted to `size_t`. -/
def setupSizeOf (mem : Mem) : Nat := (setup_sects mem + 1) * 512

/-- The third argument of the kernel `memcpy`: `imageSize - setupSize` in `size_t`,
which wraps modulo `2 ^ 64`. -/
def kernelCopyLen (imageSize setupSize : Nat) : Nat :=
  (imageSize + (2 ^ 64 - setupSize % 2 ^ 64)) % 2 ^ 64

/-- The function `loadBzImage`.  `file` is what `path` resolves to; `none` makes
`open` fail. -/
def loadBzImage (mem : Mem) (path : String) (file : Option Image) : Except Fatal Mem :=
  match file with
  | none => .error ⟨1, "failed to open " ++ path⟩
  | some image =>
    let imageSize := image.size % 2 ^ 64
    -- Load boot parameters
    let mem1 := memcpy mem BOOT_PARAMS_ADDR image.byte SIZEOF_BOOT_PARAMS
    -- Load kernel
    let setupSize := setupSizeOf mem1
    .ok (memcpy mem1 KERNEL_ADDR (fun i => image.byte (setupSize + i))
      (kernelCopyLen imageSize setupSize))

/-- The function `setBootParams`. -/
def setBootParams (mem : Mem) (cmdline : CString) : Mem :=
  let p := BOOT_PARAMS_ADDR
  let mem := store8 mem (p + OFF_TYPE_OF_LOADER) 0xFF
  let mem := storeLE mem (p + OFF_RAMDISK_IMAGE) 0x0 4
  let mem := storeLE mem (p + OFF_RAMDISK_SIZE) 0x0 4
  let mem := store8 mem (p + OFF_EXT_LOADER_VER) 0x0
  let mem := storeLE mem (p + OFF_CMD_LINE_PTR) CMDLINE_ADDR 4
  let mem := storeLE mem (p + OFF_CMDLINE_SIZE) (strlen cmdline) 4
  -- Declare usable memory regions
  let mem := store8 mem (p + OFF_E820_ENTRIES) 1
  let mem := storeLE mem (p + OFF_E820_TABLE + OFF_E820_ADDR) KERNEL_ADDR 8
  let mem := storeLE mem (p + OFF_E820_TABLE + OFF_E820_SIZE) (MEMORY_SIZE - KERNEL_ADDR) 8
  let mem := storeLE mem (p + OFF_E820_TABLE + OFF_E820_TYPE) E820_RAM 4
  -- Set command line
  memcpy mem CMDLINE_ADDR (CString.byte cmdline)
    (loadLE mem (p + OFF_CMDLINE_SIZE) 4)


/-- A string literal of the C source as a C string: its UTF-8 bytes. -/
def cstr (s : String) : CString := (s.data.flatMap String.utf8EncodeChar).map UInt8.toNat

/-! ## Structures of `<linux/kvm.h>` -/

structure kvm_segment where
  base : Nat
  limit : Nat
  selector : Nat
  type : Nat
  present : Nat
  dpl : Nat
  db : Nat
  s : Nat
  l : Nat
  g : Nat
  avl : Nat
  unusable : Nat
  padding : Nat
deriving Repr, DecidableEq

structure kvm_dtable where
  base : Nat
  limit : Nat
deriving Repr, DecidableEq

structure kvm_sregs where
  cs : kvm_segment
  ds : kvm_segment
  es : kvm_segment
  fs : kvm_segment
  gs : kvm_segment
  ss : kvm_segment
  tr : kvm_segment
  ldt : kvm_segment
  gdt : kvm_dtable
  idt : kvm_dtable
  cr0 : Nat
  cr2 : Nat
  cr3 : Nat
  cr4 : Nat
  cr8 : Nat
  efer : Nat
  apic_base : Nat
  interrupt_bitmap : List Nat
deriving Repr, DecidableEq

structure kvm_regs where
  rax : Nat
  rbx : Nat
  rcx : Nat
  rdx : Nat
  rsi : Nat
  rdi : Nat
  rsp : Nat
  rbp : Nat
  r8 : Nat
  r9 : Nat
  r10 : Nat
  r11 : Nat
  r12 : Nat
  r13 : Nat
  r14 : Nat
  r15 : Nat
  rip : Nat
  rflags : Nat
deriving Repr, DecidableEq

structure kvm_cpuid_entry2 where
  function : Nat
  index : Nat
  flags : Nat
  eax : Nat
  ebx : Nat
  ecx : Nat
  edx : Nat
deriving Repr, DecidableEq

structure kvm_cpuid2 where
  nent : Nat
  entries : List kvm_cpuid_entry2
deriving Repr, DecidableEq

/-- The member `io` of the union in `struct kvm_run`. -/
structure kvm_run_io where
  direction : Nat
  size : Nat
  port : Nat
  count : Nat
  data_offset : Nat
deriving Repr, DecidableEq

/-- The shared run structure: the members the program reads, and the bytes of the
mapping by their offset from the pointer `run`, where the hypervisor places the data of
an I/O exit (at `io.data_offset`, past the members). -/
structure kvm_run where
  exit_reason : Nat
  io : kvm_run_io
  bytes : Mem

/-- The requests passed to `ioctl`, with the argument each one carries. -/
inductive Ioctl where
  | KVM_CREATE_VM
  | KVM_GET_VCPU_MMAP_SIZE
  | KVM_GET_SUPPORTED_CPUID (nent : Nat)
  | KVM_CREATE_VCPU (cpuid : Int)
  | KVM_SET_USER_MEMORY_REGION (slot flags guest_phys_addr memory_size : Nat)
  | KVM_SET_TSS_ADDR (addr : Nat)
  | KVM_CREATE_IRQCHIP
  | KVM_CREATE_PIT2 (flags : Nat)
  | KVM_RUN
  | KVM_GET_REGS
  | KVM_SET_REGS (regs : kvm_regs)
  | KVM_GET_SREGS
  | KVM_SET_SREGS (sregs : kvm_sregs)
  | KVM_SET_CPUID2 (cpuid : kvm_cpuid2)
deriving Repr, DecidableEq

/-! ## The process and its environment -/

/-- The environment of the process (what the host and the hypervisor answer), the state
the hypervisor keeps for the vCPU, and the state of the process itself. -/
structure World where
  /-- The value `open("/dev/kvm", O_RDWR)` returns. -/
  devKvm : Int
  /-- The value the `n`-th `ioctl` of the process returns, counting from 0. -/
  ioctlRet : Nat → Int
  /-- The CPUID entries the host supports. -/
  supported : List kvm_cpuid_entry2
  /-- What the `n`-th `ioctl`, when it is a `KVM_RUN`, leaves in the run structure. -/
  exits : Nat → kvm_run → kvm_run
  /-- The files of the host by path. -/
  files : String → Option Image
  /-- The segment and control registers of the vCPU. -/
  sregs : kvm_sregs
  /-- The general registers of the vCPU. -/
  regs : kvm_regs
  /-- The CPUID entries of the vCPU. -/
  cpuid : List kvm_cpuid_entry2
  /-- The run structure shared between the hypervisor and the process. -/
  run : kvm_run
  /-- Every `ioctl` issued so far: file descriptor and request, oldest first. -/
  calls : List (Int × Ioctl)
  /-- The static `mKvmFd` of `kvm.c`. -/
  mKvmFd : Int
  /-- The guest memory `mem` of `main`. -/
  mem : Mem
  /-- The bytes written to the standard output. -/
  stdout : List Nat

/-- The system call `ioctl`: the request is logged, the return value is the one of the
environment; a successful set request replaces the state the hypervisor keeps, and
`KVM_RUN` leaves the exit in the run structure. -/
def ioctl (w : World) (fd : Int) (req : Ioctl) : World × Int :=
  let n := w.calls.length
  let res := w.ioctlRet n
  let w := { w with calls := w.calls ++ [(fd, req)] }
  match req with
  | .KVM_RUN => ({ w with run := w.exits n w.run }, res)
  | .KVM_SET_REGS r => (if res < 0 then w else { w with regs := r }, res)
  | .KVM_SET_SREGS s => (if res < 0 then w else { w with sregs := s }, res)
  | .KVM_SET_CPUID2 c =>
    (if res < 0 then w else { w with cpuid := c.entries.take c.nent }, res)
  | _ => (w, res)

/-- A step of the process: it goes on with a result, or the process has ended through
`err`, in the world it had reached. -/
abbrev Proc (α : Type) := Except (Fatal × World) α

/-- The world a run of the process ends in. -/
def Proc.world : Proc World → World
  | .ok w => w
  | .error (_, w) => w

/-- The library call `err(status, msg)`. -/
def err {α : Type} (w : World) (status : Nat) (msg : String) : Proc α :=
  .error (⟨status, msg⟩, w)

/-! ## `kvm.c` -/

def kvmInit (w : World) : Proc World :=
  let w := { w with mKvmFd := w.devKvm }
  if w.mKvmFd < 0 then err w 1 "failed to open KVM" else .ok w

def kvmCreateVm (w : World) : Proc (World × Int) :=
  let (w, res) := ioctl w w.mKvmFd .KVM_CREATE_VM
  if res < 0 then err w 1 "KVM_CREATE_VM failed" else .ok (w, res)

def kvmGetVcpuMmapSize (w : World) : Proc (World × Nat) :=
  let (w, res) := ioctl w w.mKvmFd .KVM_GET_VCPU_MMAP_SIZE
  if res < 0 then err w 1 "KVM_GET_VCPU_MMAP_SIZE failed" else .ok (w, res.toNat)

def kvmGetSupportedCpuid (w : World) : Proc (World × kvm_cpuid2) :=
  let nent := MAX_CPUID_ENTRIES
  let (w, res) := ioctl w w.mKvmFd (.KVM_GET_SUPPORTED_CPUID nent)
  if res < 0 then err w 1 "KVM_GET_SUPPORTED_CPUID failed"
  else .ok (w, ⟨(w.supported.take nent).length, w.supported.take nent⟩)

def kvmCreateVcpu (w : World) (vmFd : Int) (cpuid : Int) : Proc (World × Int) :=
  let (w, res) := ioctl w vmFd (.KVM_CREATE_VCPU cpuid)
  if res < 0 then err w 1 "KVM_CREATE_VCPU failed" else .ok (w, res)

def kvmSetUserMemoryRegion (w : World) (vmFd : Int) (memorySize : Nat) :
    Proc World :=
  let (w, res) := ioctl w vmFd (.KVM_SET_USER_MEMORY_REGION 0 0 0x0 memorySize)
  if res < 0 then err w 1 "KVM_SET_TSS_ADDR failed" else .ok w

def kvmSetTssAddr (w : World) (vmFd : Int) (addr : Nat) : Proc World :=
  let (w, res) := ioctl w vmFd (.KVM_SET_TSS_ADDR addr)
  if res < 0 then err w 1 "KVM_SET_TSS_ADDR failed" else .ok w

def kvmCreateIrqchip (w : World) (vmFd : Int) : Proc World :=
  let (w, res) := ioctl w vmFd .KVM_CREATE_IRQCHIP
  if res < 0 then err w 1 "KVM_CREATE_IRQCHIP failed" else .ok w

def kvmCreatePit2 (w : World) (vmFd : Int) : Proc World :=
  let (w, res) := ioctl w vmFd (.KVM_CREATE_PIT2 0)
  if res < 0 then err w 1 "KVM_CREATE_PIT2 failed" else .ok w

/-- The function `kvmRun`: the value `ioctl` returns is dropped. -/
def kvmRun (w : World) (vcpuFd : Int) : World :=
  (ioctl w vcpuFd .KVM_RUN).1

def kvmGetRegs (w : World) (vcpuFd : Int) : Proc (World × kvm_regs) :=
  let (w, res) := ioctl w vcpuFd .KVM_GET_REGS
  if res < 0 then err w 1 "KVM_GET_REGS failed" else .ok (w, w.regs)

def kvmSetRegs (w : World) (vcpuFd : Int) (regs : kvm_regs) : Proc World :=
  let (w, res) := ioctl w vcpuFd (.KVM_SET_REGS regs)
  if res < 0 then err w 1 "KVM_SET_REGS failed" else .ok w

def kvmGetSregs (w : World) (vcpuFd : Int) : Proc (World × kvm_sregs) :=
  let (w, res) := ioctl w vcpuFd .KVM_GET_SREGS
  if res < 0 then err w 1 "KVM_GET_SREGS failed" else .ok (w, w.sregs)

def kvmSetSregs (w : World) (vcpuFd : Int) (sregs : kvm_sregs) : Proc World :=
  let (w, res) := ioctl w vcpuFd (.KVM_SET_SREGS sregs)
  if res < 0 then err w 1 "KVM_SET_SREGS failed" else .ok w

def kvmSetCpuid2 (w : World) (vcpuFd : Int) (cpuid : kvm_cpuid2) : Proc World :=
  let (w, res) := ioctl w vcpuFd (.KVM_SET_CPUID2 cpuid)
  if res < 0 then err w 1 "KVM_SET_CPUID2 failed" else .ok w

/-! ## The vCPU state initializer (`main.c`) -/

def setVcpuCpuId (w : World) (vcpuFd : Int) : Proc World := do
  let (w, cpuid) ← kvmGetSupportedCpuid w
  kvmSetCpuid2 w vcpuFd cpuid

/-- The expression `~0` stored to the `__u32` member `limit`. -/
def U32_ALL_ONES : Nat := 2 ^ 32 - 1

def setVcpuRegs (w : World) (vcpuFd : Int) : Proc World := do
  let (w, sregs) ← kvmGetSregs w vcpuFd
  let sregs := { sregs with cs := { sregs.cs with base := 0, limit := U32_ALL_ONES, g := 1, db := 1 } }
  let sregs := { sregs with ds := { sregs.ds with base := 0, limit := U32_ALL_ONES, g := 1 } }
  let sregs := { sregs with fs := { sregs.fs with base := 0, limit := U32_ALL_ONES, g := 1 } }
  let sregs := { sregs with gs := { sregs.gs with base := 0, limit := U32_ALL_ONES, g := 1 } }
  let sregs := { sregs with es := { sregs.es with base := 0, limit := U32_ALL_ONES, g := 1 } }
  let sregs := { sregs with ss := { sregs.ss with base := 0, limit := U32_ALL_ONES, g := 1, db := 1 } }
  let sregs := { sregs with cr0 := sregs.cr0 ||| 1 } -- Enable protected mode
  let w ← kvmSetSregs w vcpuFd sregs
  let (w, regs) ← kvmGetRegs w vcpuFd
  let regs := { regs with rflags := 2, rip := KERNEL_ADDR, rsi := BOOT_PARAMS_ADDR }
  kvmSetRegs w vcpuFd regs

/-! ## The serial device model and the exit dispatch loop (`main.c`) -/

/-- Conversion of a byte to `int8_t` and then to `int`. -/
def int8 (b : Nat) : Int := if b % 256 < 128 then (b % 256 : Nat) else (b % 256 : Nat) - 256

/-- Conversion of an `unsigned` value to the `int` that `%d` prints. -/
def int32 (v : Nat) : Int :=
  if v % 2 ^ 32 < 2 ^ 31 then (v % 2 ^ 32 : Nat) else (v % 2 ^ 32 : Nat) - 2 ^ 32

/-- The conversion `%d` of `printf`. -/
def fmtD (v : Int) : String := toString v

/-- The conversion `%X` of `printf`. -/
def fmtX (v : Nat) : String := String.mk ((Nat.toDigits 16 (v % 2 ^ 32)).map Char.toUpper)

/-- The conversion `%llu` of `printf`. -/
def fmtLLU (v : Nat) : String := toString (v % 2 ^ 64)

/-- The library call `putchar(c)`: `c` is written as an `unsigned char`. -/
def putchar (out : List Nat) (c : Int) : List Nat := out ++ [(c % 256).toNat]

/-- The library call `printf`, given the formatted text. -/
def printf (out : List Nat) (text : String) : List Nat := out ++ cstr text

/-- What a device handler works on: the run structure and the standard output. -/
structure IoState where
  run : kvm_run
  stdout : List Nat

/-- The value of the macro `IO_DATA8`. -/
def IO_DATA8 (run : kvm_run) : Int := int8 (run.bytes run.io.data_offset)

/-- An assignment to the macro `IO_DATA8`. -/
def setIO_DATA8 (run : kvm_run) (v : Nat) : kvm_run :=
  { run with bytes := store8 run.bytes run.io.data_offset v }

def handleIoSerial (st : IoState) (index : Nat) : IoState :=
  let st :=
    if st.run.io.direction = KVM_EXIT_IO_IN ∧ index = UART_LSR then
      { st with run := setIO_DATA8 st.run UART_LSR_THRE } -- Ready to transmit
    else st
  if st.run.io.direction = KVM_EXIT_IO_OUT ∧ index = UART_TX then
    { st with stdout := putchar st.stdout (IO_DATA8 st.run) }
  else st

def handleIo (st : IoState) : IoState :=
  let port := st.run.io.port
  if port = 0x0061 then st -- Dunno
  else if port = 0x03B4 ∨ port = 0x03B5 then st -- VGA, ignore
  else if port = 0x0CF8 ∨ port = 0x0CFC ∨ port = 0x0CFE then st -- PCI, ignore
  else if port = COM1_PORT + 0 ∨ port = COM1_PORT + 1 ∨ port = COM1_PORT + 2 ∨
      port = COM1_PORT + 3 ∨ port = COM1_PORT + 4 ∨ port = COM1_PORT + 5 ∨
      port = COM1_PORT + 6 ∨ port = COM1_PORT + 7 then
    handleIoSerial st (port - COM1_PORT)
  else
    let text := "dir=" ++ fmtD st.run.io.direction ++ " size=" ++ fmtD st.run.io.size ++
      " port=" ++ fmtX st.run.io.port ++ " count=" ++ fmtD (int32 st.run.io.count) ++
      " offset=" ++ fmtLLU st.run.io.data_offset ++ "\n"
    { st with stdout := printf st.stdout text }

/-- The part of `main` before the loop; the result carries `vcpuFd`. -/
def mainInit (w : World) : Proc (World × Int) := do
  let w ← kvmInit w
  let (w, vmFd) ← kvmCreateVm w
  let w ← kvmCreateIrqchip w vmFd
  let w ← kvmCreatePit2 w vmFd
  -- the anonymous mapping is zero filled
  let w := { w with mem := fun _ => 0 }
  let w ← kvmSetUserMemoryRegion w vmFd MEMORY_SIZE
  let (w, vcpuFd) ← kvmCreateVcpu w vmFd 0
  let w ← setVcpuCpuId w vcpuFd
  let w ← setVcpuRegs w vcpuFd
  let path := "/boot/vmlinuz-linux"
  let mem ← (loadBzImage w.mem path (w.files path)).mapError (fun e => (e, w))
  let w := { w with mem := setBootParams mem (cstr "earlyprintk=ttyS0,keep") }
  let (w, _runSize) ← kvmGetVcpuMmapSize w
  pure (w, vcpuFd)

/-- One pass through the body of the loop `while (1)` of `main`. -/
def mainStep (w : World) (vcpuFd : Int) : World :=
  let w := kvmRun w vcpuFd
  if w.run.exit_reason = KVM_EXIT_IO then
    let st := handleIo ⟨w.run, w.stdout⟩
    { w with run := st.run, stdout := st.stdout }
  else
    let text := "unhandled exit reason: " ++ fmtD (int32 w.run.exit_reason) ++ "\n"
    { w with stdout := printf w.stdout text }

/-- The first `n` passes through the loop of `main`, which has no exit. -/
def mainLoop (w : World) (vcpuFd : Int) : Nat → World
  | 0 => w
  | n + 1 => mainLoop (mainStep w vcpuFd) vcpuFd n

/-- The function `main`, observed after `n` passes through its loop. -/
def main (w : World) (n : Nat) : Proc World := do
  let (w, vcpuFd) ← mainInit w
  pure (mainLoop w vcpuFd n)

/-! ## Example inputs -/

/-- An I/O exit: `IN` of one byte on the line status port `0x3FD`. -/
def exitLsrIn : kvm_run := ⟨ KVM_EXIT_IO, ⟨KVM_EXIT_IO_IN, 1, 0x3FD, 1, 4096⟩, fun _ => 0⟩

/-- An I/O exit: `OUT` of the byte `'A'` on the transmit data port `0x3F8`. -/
def exitTxOutA : kvm_run := ⟨ KVM_EXIT_IO, ⟨KVM_EXIT_IO_OUT, 1, 0x3F8, 1, 4096⟩, fun _ => 65⟩

/-- A segment register of a vCPU after reset. -/
def resetSegment : kvm_segment := ⟨0, 0xFFFF, 0, 3, 1, 0, 0, 1, 0, 0, 0, 0, 0⟩

/-- The segment and control registers of a vCPU after reset. -/
def resetSregs : kvm_sregs :=
  { cs := { resetSegment with base := 0xFFFF0000, selector := 0xF000, type := 11 },
    ds := resetSegment, es := resetSegment, fs := resetSegment, gs := resetSegment,
    ss := resetSegment,
    tr := { resetSegment with type := 11, s := 0 },
    ldt := { resetSegment with type := 2, s := 0 },
    gdt := ⟨0, 0xFFFF⟩, idt := ⟨0, 0xFFFF⟩,
    cr0 := 0x60000010, cr2 := 0, cr3 := 0, cr4 := 0, cr8 := 0, efer := 0,
    apic_base := 0xFEE00900, interrupt_bitmap := [0, 0, 0, 0] }

/-- The general registers of a vCPU after reset. -/
def resetRegs : kvm_regs :=
  { rax := 0, rbx := 0, rcx := 0, rdx := 0x600, rsi := 0, rdi := 0, rsp := 0, rbp := 0,
    r8 := 0, r9 := 0, r10 := 0, r11 := 0, r12 := 0, r13 := 0, r14 := 0, r15 := 0,
    rip := 0xFFF0, rflags := 2 }

/-- A world in which every `ioctl` returns `ret`, `KVM_RUN` leaves the run structure as
it is, the vCPU is in its reset state and the run structure holds `run`. -/
def worldWith (ret : Int) (run : kvm_run) : World :=
  { devKvm := 3, ioctlRet := fun _ => ret,
    supported := [⟨0, 0, 0, 0xD, 0x756E6547, 0x6C65746E, 0x49656E69⟩],
    exits := fun _ r => r, files := fun _ => none,
    sregs := resetSregs, regs := resetRegs, cpuid := [], run := run, calls := [],
    mKvmFd := 3, mem := fun _ => 0, stdout := [] }

/-- A world for `main`: the twelve requests before the loop succeed (`KVM_CREATE_VM`
returns 4, `KVM_CREATE_VCPU` returns 5, `KVM_GET_VCPU_MMAP_SIZE` returns 12288), the
first `KVM_RUN` succeeds and leaves an `OUT` of `'A'` on `0x3F8`, and every later
`KVM_RUN` returns `-1` and leaves the run structure as it is. -/
def worldRunFails : World :=
  { worldWith 0 ⟨0, ⟨0, 0, 0, 0, 0⟩, fun _ => 0⟩ with
    ioctlRet := fun n =>
      if n = 0 then 4 else if n = 4 then 5 else if n = 11 then 12288
      else if n ≤ 12 then 0 else -1,
    exits := fun n r => if n = 12 then exitTxOutA else r,
    files := fun _ => some ⟨4096, fun _ => 3⟩ }

/-! ## Memory lemmas -/

theorem store8_same (mem : Mem) (a v : Nat) : store8 mem a v a = v % 256 := by
  simp [store8]

theorem store8_other (mem : Mem) (a v x : Nat) (h : x ≠ a) : store8 mem a v x = mem x := by
  simp [store8, h]

theorem storeLE_outside (n : Nat) : ∀ (mem : Mem) (a v x : Nat),
    (x < a ∨ a + n ≤ x) → storeLE mem a v n x = mem x := by
  induction n with
  | zero => intro mem a v x _; rfl
  | succ n ih =>
    intro mem a v x h
    rw [storeLE, ih _ _ _ _ (by omega), store8_other _ _ _ _ (by omega)]

theorem loadLE_congr (n : Nat) : ∀ (m1 m2 : Mem) (a : Nat),
    (∀ x, a ≤ x → x < a + n → m1 x = m2 x) → loadLE m1 a n = loadLE m2 a n := by
  induction n with
  | zero => intro m1 m2 a _; rfl
  | succ n ih =>
    intro m1 m2 a h
    rw [loadLE, loadLE, ih m1 m2 (a + 1) (fun x h1 h2 => h x (by omega) (by omega))]
    simp [load8, h a (by omega) (by omega)]

theorem loadLE_storeLE (n : Nat) : ∀ (mem : Mem) (a v : Nat),
    loadLE (storeLE mem a v n) a n = v % 256 ^ n := by
  induction n with
  | zero => intro mem a v; simp [loadLE, Nat.mod_one]
  | succ n ih =>
    intro mem a v
    rw [loadLE, storeLE, ih]
    have h : load8 (storeLE (store8 mem a v) (a + 1) (v / 256) n) a = v % 256 := by
      rw [load8, storeLE_outside _ _ _ _ _ (by omega), store8_same]
      exact Nat.mod_mod _ _
    rw [h, pow_succ, Nat.mul_comm (256 ^ n) 256, Nat.mod_mul]

theorem memcpy_inside (mem : Mem) (dst : Nat) (src : Nat → Nat) (n i : Nat) (h : i < n) :
    memcpy mem dst src n (dst + i) = src i % 256 := by
  simp [memcpy, h]

theorem memcpy_outside (mem : Mem) (dst : Nat) (src : Nat → Nat) (n x : Nat)
    (h : x < dst ∨ dst + n ≤ x) : memcpy mem dst src n x = mem x := by
  have : ¬ (dst ≤ x ∧ x < dst + n) := by omega
  simp [memcpy, this]

theorem strlen_eq_length : ∀ (c : CString), (∀ b ∈ c, b % 256 ≠ 0) → strlen c = c.length
  | [], _ => rfl
  | b :: bs, h => by
    have hb : b % 256 ≠ 0 := h b (List.mem_cons_self _ _)
    have ht := strlen_eq_length bs (fun x hx => h x (List.mem_cons_of_mem _ hx))
    simp [strlen, hb, ht]

theorem kernelCopyLen_of_le (imageSize setupSize : Nat) (h : setupSize ≤ imageSize)
    (hs : imageSize < 2 ^ 64) : kernelCopyLen imageSize setupSize = imageSize - setupSize := by
  unfold kernelCopyLen
  have h1 : setupSize % 2 ^ 64 = setupSize := Nat.mod_eq_of_lt (by omega)
  rw [h1]
  have h2 : imageSize + (2 ^ 64 - setupSize) = (imageSize - setupSize) + 2 ^ 64 := by omega
  rw [h2, Nat.add_mod_right]
  exact Nat.mod_eq_of_lt (by omega)

/-! ## The boot image loader -/

/-- After the header copy the field `setup_sects` is the image byte at offset `0x1F1`. -/
theorem setupSizeOf_header (mem : Mem) (image : Image) :
    setupSizeOf (memcpy mem BOOT_PARAMS_ADDR image.byte SIZEOF_BOOT_PARAMS)
      = (image.byte 0x1F1 + 1) * 512 := by
  have h := memcpy_inside mem BOOT_PARAMS_ADDR image.byte SIZEOF_BOOT_PARAMS 0x1F1
    (by decide)
  have hb : image.byte 0x1F1 % 256 = image.byte 0x1F1 := by
    simp [Image.byte]
  simp only [setupSizeOf, setup_sects, load8, OFF_SETUP_SECTS, h, hb, Nat.mod_mod]

/-- C1: for an image whose header gives `setupSize = (setup_sects + 1) * 512` with
`setupSize ≤ imageSize`, `imageSize ≥ 4096` and the payload fitting below the end of guest
memory, `loadBzImage` returns, and every guest byte at `0x200000 + i`, for
`i < imageSize - setupSize`, is the image byte at `setupSize + i`. -/
theorem loadBzImage_kernel_copy (mem : Mem) (path : String) (image : Image)
    (hsetup : (image.byte 0x1F1 + 1) * 512 ≤ image.size)
    (_hsize : 4096 ≤ image.size)
    (hfit : 0x200000 + (image.size - (image.byte 0x1F1 + 1) * 512) ≤ 0x40000000) :
    ∃ mem', loadBzImage mem path (some image) = .ok mem' ∧
      ∀ i, i < image.size - (image.byte 0x1F1 + 1) * 512 →
        mem' (0x200000 + i) = image.byte ((image.byte 0x1F1 + 1) * 512 + i) := by
  refine ⟨_, rfl, ?_⟩
  intro i hi
  have hb : image.byte 0x1F1 < 256 := Nat.mod_lt _ (by decide)
  have hlt : image.size < 2 ^ 64 := by omega
  simp only [setupSizeOf_header, Nat.mod_eq_of_lt hlt,
    kernelCopyLen_of_le _ _ hsetup hlt]
  have h := memcpy_inside (memcpy mem BOOT_PARAMS_ADDR image.byte SIZEOF_BOOT_PARAMS)
    KERNEL_ADDR (fun i => image.byte ((image.byte 0x1F1 + 1) * 512 + i)) _ i hi
  rw [show (0x200000 : Nat) = KERNEL_ADDR from rfl, h]
  simp [Image.byte]

/-- The witness of C1: an image of 4096 bytes whose `setup_sects` is 3, so that
`setupSize = 2048`. -/
theorem loadBzImage_kernel_copy_witness :
    ∃ mem', loadBzImage (fun _ => 0) "/boot/vmlinuz-linux"
        (some ⟨4096, fun _ => 3⟩) = .ok mem' ∧
      ∀ i, i < (Image.mk 4096 (fun _ => 3)).size
            - ((Image.mk 4096 (fun _ => 3)).byte 0x1F1 + 1) * 512 →
        mem' (0x200000 + i) = (Image.mk 4096 (fun _ => 3)).byte
          (((Image.mk 4096 (fun _ => 3)).byte 0x1F1 + 1) * 512 + i) :=
  loadBzImage_kernel_copy (fun _ => 0) "/boot/vmlinuz-linux" ⟨4096, fun _ => 3⟩
    (by decide) (by decide) (by decide)

/-- C2, the code at an image of 4096 bytes whose `setup_sects` is `0xFF`:
`setupSize = 131072` exceeds `imageSize = 4096`, nothing rejects the image, and the kernel
`memcpy` is called with the wrapped length `2 ^ 64 - 126976`. -/
theorem loadBzImage_setup_beyond_image :
    (Image.mk 4096 (fun _ => 0xFF)).size = 4096 ∧
    setupSizeOf (memcpy (fun _ => 0) BOOT_PARAMS_ADDR
      (Image.mk 4096 (fun _ => 0xFF)).byte SIZEOF_BOOT_PARAMS) = 131072 ∧
    kernelCopyLen 4096 131072 = 2 ^ 64 - 126976 ∧
    loadBzImage (fun _ => 0) "/boot/vmlinuz-linux" (some ⟨4096, fun _ => 0xFF⟩)
      = .ok (memcpy
          (memcpy (fun _ => 0) BOOT_PARAMS_ADDR
            (Image.mk 4096 (fun _ => 0xFF)).byte SIZEOF_BOOT_PARAMS)
          KERNEL_ADDR (fun i => (Image.mk 4096 (fun _ => 0xFF)).byte (131072 + i))
          (2 ^ 64 - 126976)) := by
  refine ⟨by decide, by decide, by decide, ?_⟩
  have h1 : setupSizeOf (memcpy (fun _ => 0) BOOT_PARAMS_ADDR
      (Image.mk 4096 (fun _ => 0xFF)).byte SIZEOF_BOOT_PARAMS) = 131072 := by decide
  have h2 : (Image.mk 4096 (fun _ => 0xFF)).size % 2 ^ 64 = 4096 := by decide
  have h3 : kernelCopyLen 4096 131072 = 2 ^ 64 - 126976 := by decide
  simp only [loadBzImage, h1, h2, h3]

/-- The boot parameters as `setBootParams` leaves them, before the command line copy. -/
theorem setBootParams_fields (mem : Mem) (c : CString) :
    loadLE (setBootParams mem c) (BOOT_PARAMS_ADDR + OFF_CMD_LINE_PTR) 4 = CMDLINE_ADDR ∧
    loadLE (setBootParams mem c) (BOOT_PARAMS_ADDR + OFF_CMDLINE_SIZE) 4 = strlen c % 2 ^ 32 ∧
    load8 (setBootParams mem c) (BOOT_PARAMS_ADDR + OFF_E820_ENTRIES) = 1 := by
  refine ⟨?_, ?_, ?_⟩
  · simp [setBootParams, storeLE, store8, loadLE, load8, memcpy, BOOT_PARAMS_ADDR,
      OFF_CMD_LINE_PTR, CMDLINE_ADDR, OFF_CMDLINE_SIZE, OFF_E820_ENTRIES, OFF_E820_TABLE,
      OFF_E820_ADDR, OFF_E820_SIZE, OFF_E820_TYPE]
  · simp [setBootParams, storeLE, store8, loadLE, load8, memcpy, BOOT_PARAMS_ADDR,
      OFF_CMD_LINE_PTR, CMDLINE_ADDR, OFF_CMDLINE_SIZE, OFF_E820_ENTRIES, OFF_E820_TABLE,
      OFF_E820_ADDR, OFF_E820_SIZE, OFF_E820_TYPE]
    omega
  · simp [setBootParams, storeLE, store8, loadLE, load8, memcpy, BOOT_PARAMS_ADDR,
      OFF_CMD_LINE_PTR, CMDLINE_ADDR, OFF_CMDLINE_SIZE, OFF_E820_ENTRIES, OFF_E820_TABLE,
      OFF_E820_ADDR, OFF_E820_SIZE, OFF_E820_TYPE]

/-- The command line copy of `setBootParams` has the length `strlen` gives, narrowed to
the 32 bits of `cmdline_size`. -/
theorem setBootParams_copy (mem : Mem) (cmd : CString) (i : Nat)
    (hi : i < strlen cmd % 2 ^ 32) :
    setBootParams mem cmd (CMDLINE_ADDR + i) = CString.byte cmd i := by
  unfold setBootParams memcpy
  rw [if_pos]
  · simp [CString.byte]
  · refine ⟨by omega, ?_⟩
    simp [storeLE, store8, loadLE, load8, BOOT_PARAMS_ADDR,
      OFF_CMD_LINE_PTR, CMDLINE_ADDR, OFF_CMDLINE_SIZE, OFF_E820_ENTRIES, OFF_E820_TABLE,
      OFF_E820_ADDR, OFF_E820_SIZE, OFF_E820_TYPE]
    omega

/-- C3: for a command line `cmd` of `n` bytes, none of them NUL, with
`0x20000 + n ≤ 0x200000`, after `setBootParams` the header at `0x7000` has
`cmd_line_ptr = 0x20000` and `cmdline_size = n`, and the guest byte at `0x20000 + i` is
the `i`-th byte of `cmd` for every `i < n`. -/
theorem setBootParams_cmdline (mem : Mem) (cmd : CString)
    (hbytes : ∀ b ∈ cmd, 0 < b ∧ b < 256) (hfit : 0x20000 + cmd.length ≤ 0x200000) :
    loadLE (setBootParams mem cmd) (0x7000 + OFF_CMD_LINE_PTR) 4 = 0x20000 ∧
    loadLE (setBootParams mem cmd) (0x7000 + OFF_CMDLINE_SIZE) 4 = cmd.length ∧
    ∀ i, i < cmd.length → some (setBootParams mem cmd (0x20000 + i)) = cmd.get? i := by
  have hnul : ∀ b ∈ cmd, b % 256 ≠ 0 := by
    intro b hb
    have := hbytes b hb
    omega
  have hlen := strlen_eq_length cmd hnul
  have hmod : strlen cmd % 2 ^ 32 = cmd.length := by
    rw [hlen]; exact Nat.mod_eq_of_lt (by omega)
  obtain ⟨h1, h2, _⟩ := setBootParams_fields mem cmd
  refine ⟨h1, ?_, ?_⟩
  · have h : BOOT_PARAMS_ADDR = 0x7000 := rfl
    rw [h] at h2
    rw [h2, hmod]
  · intro i hi
    rw [show (0x20000 : Nat) = CMDLINE_ADDR from rfl,
      setBootParams_copy mem cmd i (by omega)]
    have hget : cmd.get? i = some (cmd.get ⟨i, hi⟩) := List.get?_eq_get hi
    have hlt : cmd.get ⟨i, hi⟩ < 256 := (hbytes _ (List.get_mem cmd i hi)).2
    rw [hget]
    simp only [CString.byte, List.getD_eq_getElem?_getD]
    rw [← List.get?_eq_getElem?, hget]
    exact congrArg some (Nat.mod_eq_of_lt hlt)

/-- The witness of C3: the command line of `main`. -/
theorem setBootParams_cmdline_witness :
    (∀ b ∈ cstr "earlyprintk=ttyS0,keep", 0 < b ∧ b < 256) ∧
    (cstr "earlyprintk=ttyS0,keep").length = 22 ∧
    loadLE (setBootParams (fun _ => 0) (cstr "earlyprintk=ttyS0,keep"))
      (0x7000 + OFF_CMD_LINE_PTR) 4 = 0x20000 ∧
    loadLE (setBootParams (fun _ => 0) (cstr "earlyprintk=ttyS0,keep"))
      (0x7000 + OFF_CMDLINE_SIZE) 4 = (cstr "earlyprintk=ttyS0,keep").length ∧
    ∀ i, i < (cstr "earlyprintk=ttyS0,keep").length →
      some (setBootParams (fun _ => 0) (cstr "earlyprintk=ttyS0,keep") (0x20000 + i))
        = (cstr "earlyprintk=ttyS0,keep").get? i :=
  ⟨by decide, by decide,
    setBootParams_cmdline (fun _ => 0) (cstr "earlyprintk=ttyS0,keep") (by decide)
      (by decide)⟩

/-- C4: for every prior guest memory and every command line, after `setBootParams` the
boot parameters have `e820_entries = 1`, and `e820_table[0]` has `addr = 0x200000`,
`size = 0x40000000 - 0x200000 = 0x3FE00000` and `type = E820_RAM = 1`. -/
theorem setBootParams_e820 (mem : Mem) (c : CString) :
    load8 (setBootParams mem c) (0x7000 + OFF_E820_ENTRIES) = 1 ∧
    loadLE (setBootParams mem c) (0x7000 + OFF_E820_TABLE + OFF_E820_ADDR) 8 = 0x200000 ∧
    loadLE (setBootParams mem c) (0x7000 + OFF_E820_TABLE + OFF_E820_SIZE) 8
      = 0x40000000 - 0x200000 ∧
    loadLE (setBootParams mem c) (0x7000 + OFF_E820_TABLE + OFF_E820_SIZE) 8 = 0x3FE00000 ∧
    loadLE (setBootParams mem c) (0x7000 + OFF_E820_TABLE + OFF_E820_TYPE) 4 = 1 := by
  refine ⟨?_, ?_, ?_, ?_, ?_⟩ <;>
  simp [setBootParams, storeLE, store8, loadLE, load8, memcpy, BOOT_PARAMS_ADDR,
      OFF_CMD_LINE_PTR, CMDLINE_ADDR, OFF_CMDLINE_SIZE, OFF_E820_ENTRIES, OFF_E820_TABLE,
      OFF_E820_ADDR, OFF_E820_SIZE, OFF_E820_TYPE, KERNEL_ADDR, MEMORY_SIZE, E820_RAM]

/-! ## The serial device model -/

theorem putchar_IO_DATA8 (run : kvm_run) (out : List Nat) :
    putchar out (IO_DATA8 run) = out ++ [run.bytes run.io.data_offset % 256] := by
  unfold putchar IO_DATA8 int8
  congr 2
  split <;> omega

theorem handleIo_lsr_in (r : kvm_run) (o : List Nat)
    (hd : r.io.direction = KVM_EXIT_IO_IN) (hp : r.io.port = 0x3F8 + 5) :
    handleIo ⟨r, o⟩
      = ⟨{ r with bytes := store8 r.bytes r.io.data_offset UART_LSR_THRE }, o⟩ := by
  simp [handleIo, handleIoSerial, setIO_DATA8, hd, hp, COM1_PORT, UART_LSR, UART_TX,
    KVM_EXIT_IO_IN, KVM_EXIT_IO_OUT]

theorem handleIo_tx_out (r : kvm_run) (o : List Nat)
    (hd : r.io.direction = KVM_EXIT_IO_OUT) (hp : r.io.port = 0x3F8 + 0) :
    handleIo ⟨r, o⟩ = ⟨r, o ++ [r.bytes r.io.data_offset % 256]⟩ := by
  simp [handleIo, handleIoSerial, hd, hp, COM1_PORT, UART_LSR, UART_TX,
    KVM_EXIT_IO_IN, KVM_EXIT_IO_OUT, putchar_IO_DATA8]

/-- The output after a run of serial exits: the bytes of the `OUT` exits, in order. -/
theorem handleIo_fold (exits : List kvm_run) : ∀ (out : List Nat),
    (∀ r ∈ exits,
      (r.io.direction = KVM_EXIT_IO_IN ∧ r.io.port = 0x3F8 + 5) ∨
      (r.io.direction = KVM_EXIT_IO_OUT ∧ r.io.port = 0x3F8 + 0)) →
    exits.foldl (fun o r => (handleIo ⟨r, o⟩).stdout) out
      = out ++ (exits.filter (fun r => r.io.direction = KVM_EXIT_IO_OUT)).map
          (fun r => r.bytes r.io.data_offset % 256) := by
  induction exits with
  | nil => intro out _; simp
  | cons r rs ih =>
    intro out h
    have hr := h r (List.mem_cons_self _ _)
    have hrs := ih (handleIo ⟨r, out⟩).stdout (fun x hx => h x (List.mem_cons_of_mem _ hx))
    rw [List.foldl_cons, hrs]
    rcases hr with ⟨hd, hp⟩ | ⟨hd, hp⟩
    · have hne : ¬ r.io.direction = KVM_EXIT_IO_OUT := by
        rw [hd]; decide
      simp [handleIo_lsr_in r out hd hp, List.filter_cons, hne]
    · simp [handleIo_tx_out r out hd hp, List.filter_cons, hd]

/-- C5: dispatched through `handleIo`, an `IN` exit on the line status port `0x3F8 + 5`
stores `UART_LSR_THRE = 0x20` in the run structure at `data_offset` and writes nothing;
an `OUT` exit on the transmit data port `0x3F8 + 0` whose data byte is `b` appends the
one byte `b` to the output and leaves the run structure as it is; so after a sequence of
such exits the output is the one before, followed by the bytes of the `OUT` exits in the
order received. -/
theorem handleIo_serial (exits : List kvm_run) (out : List Nat)
    (h : ∀ r ∈ exits,
      (r.io.direction = KVM_EXIT_IO_IN ∧ r.io.port = 0x3F8 + 5) ∨
      (r.io.direction = KVM_EXIT_IO_OUT ∧ r.io.port = 0x3F8 + 0)) :
    (∀ (r : kvm_run) (o : List Nat),
      r.io.direction = KVM_EXIT_IO_IN → r.io.port = 0x3F8 + 5 →
        (handleIo ⟨r, o⟩).run.bytes r.io.data_offset = 0x20 ∧
        (∀ x, x ≠ r.io.data_offset → (handleIo ⟨r, o⟩).run.bytes x = r.bytes x) ∧
        (handleIo ⟨r, o⟩).run.io = r.io ∧
        (handleIo ⟨r, o⟩).run.exit_reason = r.exit_reason ∧
        (handleIo ⟨r, o⟩).stdout = o) ∧
    (∀ (r : kvm_run) (o : List Nat) (b : Nat), b < 256 →
      r.io.direction = KVM_EXIT_IO_OUT → r.io.port = 0x3F8 + 0 →
      r.bytes r.io.data_offset = b →
        handleIo ⟨r, o⟩ = ⟨r, o ++ [b]⟩) ∧
    exits.foldl (fun o r => (handleIo ⟨r, o⟩).stdout) out
      = out ++ (exits.filter (fun r => r.io.direction = KVM_EXIT_IO_OUT)).map
          (fun r => r.bytes r.io.data_offset % 256) := by
  refine ⟨?_, ?_, handleIo_fold exits out h⟩
  · intro r o hd hp
    rw [handleIo_lsr_in r o hd hp]
    refine ⟨by simp [store8, UART_LSR_THRE], ?_, rfl, rfl, rfl⟩
    intro x hx
    simp [store8, hx]
  · intro r o b hb hd hp hbyte
    rw [handleIo_tx_out r o hd hp, hbyte, Nat.mod_eq_of_lt hb]

/-- The witness of C5: `IN` on `0x3FD`, then `OUT` of `'A'` on `0x3F8`. -/
theorem handleIo_serial_witness :
    (∀ r ∈ [exitLsrIn, exitTxOutA],
      (r.io.direction = KVM_EXIT_IO_IN ∧ r.io.port = 0x3F8 + 5) ∨
      (r.io.direction = KVM_EXIT_IO_OUT ∧ r.io.port = 0x3F8 + 0)) ∧
    (handleIo ⟨exitLsrIn, []⟩).run.bytes exitLsrIn.io.data_offset = 0x20 ∧
    (handleIo ⟨exitLsrIn, []⟩).stdout = [] ∧
    handleIo ⟨exitTxOutA, []⟩ = ⟨exitTxOutA, [] ++ [65]⟩ ∧
    [exitLsrIn, exitTxOutA].foldl (fun o r => (handleIo ⟨r, o⟩).stdout) [] = [65] :=
  have h : ∀ r ∈ [exitLsrIn, exitTxOutA],
      (r.io.direction = KVM_EXIT_IO_IN ∧ r.io.port = 0x3F8 + 5) ∨
      (r.io.direction = KVM_EXIT_IO_OUT ∧ r.io.port = 0x3F8 + 0) := by decide
  have t := handleIo_serial [exitLsrIn, exitTxOutA] [] h
  ⟨h, (t.1 exitLsrIn [] rfl rfl).1, (t.1 exitLsrIn [] rfl rfl).2.2.2.2,
    t.2.1 exitTxOutA [] 65 (by decide) rfl rfl rfl, t.2.2⟩

/-! ## The vCPU state initializer -/

/-- Once `KVM_GET_SREGS` has succeeded, the second request of `setVcpuRegs` is
`KVM_SET_SREGS`, whatever the later requests return, with this state. -/
theorem setVcpuRegs_sregs_passed (w : World) (vcpuFd : Int)
    (hget : 0 ≤ w.ioctlRet w.calls.length) :
    ∃ s' : kvm_sregs,
      (setVcpuRegs w vcpuFd).world.calls.take (w.calls.length + 2)
        = w.calls ++ [(vcpuFd, .KVM_GET_SREGS), (vcpuFd, .KVM_SET_SREGS s')] ∧
      s' = { w.sregs with
        cs := { w.sregs.cs with base := 0, limit := 0xFFFFFFFF, g := 1, db := 1 },
        ds := { w.sregs.ds with base := 0, limit := 0xFFFFFFFF, g := 1 },
        fs := { w.sregs.fs with base := 0, limit := 0xFFFFFFFF, g := 1 },
        gs := { w.sregs.gs with base := 0, limit := 0xFFFFFFFF, g := 1 },
        es := { w.sregs.es with base := 0, limit := 0xFFFFFFFF, g := 1 },
        ss := { w.sregs.ss with base := 0, limit := 0xFFFFFFFF, g := 1, db := 1 },
        cr0 := w.sregs.cr0 ||| 1 } := by
  have h0 : ¬ w.ioctlRet w.calls.length < 0 := by simpa using hget
  refine ⟨_, ?_, rfl⟩
  by_cases h1 : w.ioctlRet (w.calls.length + 1) < 0
  · simp [setVcpuRegs, kvmGetSregs, kvmSetSregs, ioctl, bind, Except.bind, err,
      Proc.world, h0, h1, U32_ALL_ONES]
  · by_cases h2 : w.ioctlRet (w.calls.length + 2) < 0
    · simp [setVcpuRegs, kvmGetSregs, kvmSetSregs, kvmGetRegs, ioctl, bind, Except.bind,
        err, Proc.world, h0, h1, h2, U32_ALL_ONES, List.take_append]
    · by_cases h3 : w.ioctlRet (w.calls.length + 3) < 0
      · simp [setVcpuRegs, kvmGetSregs, kvmSetSregs, kvmGetRegs, kvmSetRegs, ioctl, bind,
          Except.bind, err, Proc.world, h0, h1, h2, h3, U32_ALL_ONES, List.take_append]
      · simp [setVcpuRegs, kvmGetSregs, kvmSetSregs, kvmGetRegs, kvmSetRegs, ioctl, bind,
          Except.bind, err, Proc.world, h0, h1, h2, h3, U32_ALL_ONES, List.take_append]

/-- Once the first three requests of `setVcpuRegs` have succeeded, its requests are these
four, whatever `KVM_SET_REGS` returns. -/
theorem setVcpuRegs_regs_passed (w : World) (vcpuFd : Int)
    (hok : ∀ i, i < 3 → 0 ≤ w.ioctlRet (w.calls.length + i)) :
    ∃ (s' : kvm_sregs) (r' : kvm_regs),
      (setVcpuRegs w vcpuFd).world.calls
        = w.calls ++ [(vcpuFd, .KVM_GET_SREGS), (vcpuFd, .KVM_SET_SREGS s'),
            (vcpuFd, .KVM_GET_REGS), (vcpuFd, .KVM_SET_REGS r')] ∧
      r' = { w.regs with rflags := 2, rip := 0x200000, rsi := 0x7000 } := by
  have h0 : ¬ w.ioctlRet w.calls.length < 0 := by
    have := hok 0 (by decide); simpa using this
  have h1 : ¬ w.ioctlRet (w.calls.length + 1) < 0 := by
    have := hok 1 (by decide); simpa using this
  have h2 : ¬ w.ioctlRet (w.calls.length + 2) < 0 := by
    have := hok 2 (by decide); simpa using this
  obtain ⟨s', _, hs⟩ := setVcpuRegs_sregs_passed w vcpuFd (by simpa using hok 0 (by decide))
  refine ⟨s', _, ?_, rfl⟩
  subst hs
  by_cases h3 : w.ioctlRet (w.calls.length + 3) < 0
  · simp [setVcpuRegs, kvmGetSregs, kvmSetSregs, kvmGetRegs, kvmSetRegs, ioctl, bind,
      Except.bind, err, Proc.world, h0, h1, h2, h3, KERNEL_ADDR, BOOT_PARAMS_ADDR,
      U32_ALL_ONES]
  · simp [setVcpuRegs, kvmGetSregs, kvmSetSregs, kvmGetRegs, kvmSetRegs, ioctl, bind,
      Except.bind, err, Proc.world, h0, h1, h2, h3, KERNEL_ADDR, BOOT_PARAMS_ADDR,
      U32_ALL_ONES]

/-- The function `setVcpuRegs` returns when the hypervisor serves its four requests,
and the vCPU then holds the general registers of the last request. -/
theorem setVcpuRegs_returns (w : World) (vcpuFd : Int)
    (hok : ∀ i, i < 4 → 0 ≤ w.ioctlRet (w.calls.length + i)) :
    setVcpuRegs w vcpuFd = .ok (setVcpuRegs w vcpuFd).world ∧
    (setVcpuRegs w vcpuFd).world.regs
      = { w.regs with rflags := 2, rip := 0x200000, rsi := 0x7000 } := by
  have h0 : ¬ w.ioctlRet w.calls.length < 0 := by
    have := hok 0 (by decide); simpa using this
  have h1 : ¬ w.ioctlRet (w.calls.length + 1) < 0 := by
    have := hok 1 (by decide); simpa using this
  have h2 : ¬ w.ioctlRet (w.calls.length + 2) < 0 := by
    have := hok 2 (by decide); simpa using this
  have h3 : ¬ w.ioctlRet (w.calls.length + 3) < 0 := by
    have := hok 3 (by decide); simpa using this
  constructor <;>
  simp [setVcpuRegs, kvmGetSregs, kvmSetSregs, kvmGetRegs, kvmSetRegs, ioctl, bind,
      Except.bind, err, Proc.world, h0, h1, h2, h3, KERNEL_ADDR, BOOT_PARAMS_ADDR]

theorem testBit_or_one (x i : Nat) (hi : i ≠ 0) : (x ||| 1).testBit i = x.testBit i := by
  have h1 : Nat.testBit 1 i = false := by
    cases h : Nat.testBit 1 i with
    | false => rfl
    | true => exact absurd (Nat.testBit_one_eq_true_iff_self_eq_zero.mp h) hi
  rw [Nat.testBit_or, h1, Bool.or_false]

/-- C6: for every state `KVM_GET_SREGS` returns to `setVcpuRegs`, the next request is
`KVM_SET_SREGS` with a state that has, on each of `cs`, `ds`, `ss` and `es`, `base = 0`,
`limit = 0xFFFFFFFF` and `g = 1`; bit 0 of its `cr0` is set and every other bit of `cr0`
is the one returned; `cr2`, `cr3`, `cr4`, `cr8`, `efer` and `apic_base` are the ones
returned. -/
theorem setVcpuRegs_segments (w : World) (vcpuFd : Int)
    (hget : 0 ≤ w.ioctlRet w.calls.length) :
    ∃ s' : kvm_sregs,
      (setVcpuRegs w vcpuFd).world.calls.take (w.calls.length + 2)
        = w.calls ++ [(vcpuFd, .KVM_GET_SREGS), (vcpuFd, .KVM_SET_SREGS s')] ∧
      (∀ seg ∈ [s'.cs, s'.ds, s'.ss, s'.es],
        seg.base = 0 ∧ seg.limit = 0xFFFFFFFF ∧ seg.g = 1) ∧
      s'.cr0.testBit 0 = true ∧
      (∀ i, i ≠ 0 → s'.cr0.testBit i = w.sregs.cr0.testBit i) ∧
      s'.cr2 = w.sregs.cr2 ∧ s'.cr3 = w.sregs.cr3 ∧ s'.cr4 = w.sregs.cr4 ∧
      s'.cr8 = w.sregs.cr8 ∧ s'.efer = w.sregs.efer ∧
      s'.apic_base = w.sregs.apic_base := by
  obtain ⟨s', hcalls, hs⟩ := setVcpuRegs_sregs_passed w vcpuFd hget
  refine ⟨s', hcalls, ?_, ?_, ?_, ?_, ?_, ?_, ?_, ?_, ?_⟩
  · subst hs; simp
  · subst hs; simp
  · intro i hi; subst hs; exact testBit_or_one _ i hi
  all_goals subst hs; rfl

/-- The witness of C6: a vCPU in its reset state. -/
theorem setVcpuRegs_segments_witness :
    0 ≤ (worldWith 0 exitLsrIn).ioctlRet (worldWith 0 exitLsrIn).calls.length ∧
    ∃ s' : kvm_sregs,
      (setVcpuRegs (worldWith 0 exitLsrIn) 5).world.calls.take
          ((worldWith 0 exitLsrIn).calls.length + 2)
        = (worldWith 0 exitLsrIn).calls ++
            [(5, .KVM_GET_SREGS), (5, .KVM_SET_SREGS s')] ∧
      (∀ seg ∈ [s'.cs, s'.ds, s'.ss, s'.es],
        seg.base = 0 ∧ seg.limit = 0xFFFFFFFF ∧ seg.g = 1) ∧
      s'.cr0.testBit 0 = true ∧
      (∀ i, i ≠ 0 → s'.cr0.testBit i = (worldWith 0 exitLsrIn).sregs.cr0.testBit i) ∧
      s'.cr2 = (worldWith 0 exitLsrIn).sregs.cr2 ∧
      s'.cr3 = (worldWith 0 exitLsrIn).sregs.cr3 ∧
      s'.cr4 = (worldWith 0 exitLsrIn).sregs.cr4 ∧
      s'.cr8 = (worldWith 0 exitLsrIn).sregs.cr8 ∧
      s'.efer = (worldWith 0 exitLsrIn).sregs.efer ∧
      s'.apic_base = (worldWith 0 exitLsrIn).sregs.apic_base :=
  ⟨by decide, setVcpuRegs_segments (worldWith 0 exitLsrIn) 5 (by decide)⟩

/-- C7, the code at a vCPU in its reset state, where `ds.db = 0` and `es.db = 0`: the
state passed to `KVM_SET_SREGS` still has `ds.db = 0` and `es.db = 0`. -/
theorem setVcpuRegs_db_data_segments :
    resetSregs.ds.db = 0 ∧ resetSregs.es.db = 0 ∧
    ∃ (w' : World) (s' : kvm_sregs) (r' : kvm_regs),
      setVcpuRegs (worldWith 0 exitLsrIn) 5 = .ok w' ∧
      w'.calls = [(5, .KVM_GET_SREGS), (5, .KVM_SET_SREGS s'),
        (5, .KVM_GET_REGS), (5, .KVM_SET_REGS r')] ∧
      s'.ds.db = 0 ∧ s'.es.db = 0 :=
  ⟨rfl, rfl, _, _, _, rfl, rfl, rfl, rfl⟩

/-- C7 as amended: for every state `KVM_GET_SREGS` returns to `setVcpuRegs`, the next
request is `KVM_SET_SREGS` with a state that has `db = 1` on `cs` and on `ss`; on `ds` and
on `es` its `db` is the one returned. -/
theorem setVcpuRegs_db (w : World) (vcpuFd : Int)
    (hget : 0 ≤ w.ioctlRet w.calls.length) :
    ∃ s' : kvm_sregs,
      (setVcpuRegs w vcpuFd).world.calls.take (w.calls.length + 2)
        = w.calls ++ [(vcpuFd, .KVM_GET_SREGS), (vcpuFd, .KVM_SET_SREGS s')] ∧
      s'.cs.db = 1 ∧ s'.ss.db = 1 ∧
      s'.ds.db = w.sregs.ds.db ∧ s'.es.db = w.sregs.es.db := by
  obtain ⟨s', hcalls, hs⟩ := setVcpuRegs_sregs_passed w vcpuFd hget
  refine ⟨s', hcalls, ?_, ?_, ?_, ?_⟩ <;> subst hs <;> rfl

/-- The witness of C7 as amended: a vCPU in its reset state. -/
theorem setVcpuRegs_db_witness :
    0 ≤ (worldWith 0 exitLsrIn).ioctlRet (worldWith 0 exitLsrIn).calls.length ∧
    ∃ s' : kvm_sregs,
      (setVcpuRegs (worldWith 0 exitLsrIn) 5).world.calls.take
          ((worldWith 0 exitLsrIn).calls.length + 2)
        = (worldWith 0 exitLsrIn).calls ++
            [(5, .KVM_GET_SREGS), (5, .KVM_SET_SREGS s')] ∧
      s'.cs.db = 1 ∧ s'.ss.db = 1 ∧
      s'.ds.db = (worldWith 0 exitLsrIn).sregs.ds.db ∧
      s'.es.db = (worldWith 0 exitLsrIn).sregs.es.db :=
  ⟨by decide, setVcpuRegs_db (worldWith 0 exitLsrIn) 5 (by decide)⟩

/-- C8: once `KVM_GET_SREGS`, `KVM_SET_SREGS` and `KVM_GET_REGS` have succeeded, for
every state `r` that `KVM_GET_REGS` returns to `setVcpuRegs` the requests issued are, in
this order, `KVM_GET_SREGS`, `KVM_SET_SREGS`, `KVM_GET_REGS` and `KVM_SET_REGS`, the last
with the state `r` changed to `rflags = 2`, `rip = 0x200000 = KERNEL_ADDR` (where
`loadBzImage` copies the kernel) and `rsi = 0x7000 = BOOT_PARAMS_ADDR` (where the boot
parameters are) and with every other register as in `r`; when `KVM_SET_REGS` succeeds as
well, `setVcpuRegs` returns and the vCPU holds that state. -/
theorem setVcpuRegs_regs (w : World) (vcpuFd : Int)
    (hok : ∀ i, i < 3 → 0 ≤ w.ioctlRet (w.calls.length + i)) :
    ∃ (s' : kvm_sregs) (r' : kvm_regs),
      (setVcpuRegs w vcpuFd).world.calls
        = w.calls ++ [(vcpuFd, .KVM_GET_SREGS), (vcpuFd, .KVM_SET_SREGS s'),
            (vcpuFd, .KVM_GET_REGS), (vcpuFd, .KVM_SET_REGS r')] ∧
      r' = { w.regs with rflags := 2, rip := 0x200000, rsi := 0x7000 } ∧
      r'.rip = KERNEL_ADDR ∧ r'.rsi = BOOT_PARAMS_ADDR ∧
      (0 ≤ w.ioctlRet (w.calls.length + 3) →
        ∃ w', setVcpuRegs w vcpuFd = .ok w' ∧ w'.regs = r') := by
  obtain ⟨s', r', hcalls, hr⟩ := setVcpuRegs_regs_passed w vcpuFd hok
  refine ⟨s', r', hcalls, hr, ?_, ?_, ?_⟩
  · subst hr; rfl
  · subst hr; rfl
  · intro h3
    have hall : ∀ i, i < 4 → 0 ≤ w.ioctlRet (w.calls.length + i) := by
      intro i hi
      rcases Nat.lt_succ_iff_lt_or_eq.mp hi with h | h
      · exact hok i h
      · subst h; exact h3
    obtain ⟨hret, hregs⟩ := setVcpuRegs_returns w vcpuFd hall
    exact ⟨_, hret, hregs.trans hr.symm⟩

/-- The witness of C8: a vCPU in its reset state. -/
theorem setVcpuRegs_regs_witness :
    (∀ i, i < 3 → 0 ≤ (worldWith 0 exitLsrIn).ioctlRet
      ((worldWith 0 exitLsrIn).calls.length + i)) ∧
    ∃ (s' : kvm_sregs) (r' : kvm_regs),
      (setVcpuRegs (worldWith 0 exitLsrIn) 5).world.calls
        = (worldWith 0 exitLsrIn).calls ++
            [(5, .KVM_GET_SREGS), (5, .KVM_SET_SREGS s'),
             (5, .KVM_GET_REGS), (5, .KVM_SET_REGS r')] ∧
      r' = { (worldWith 0 exitLsrIn).regs with
        rflags := 2, rip := 0x200000, rsi := 0x7000 } ∧
      r'.rip = KERNEL_ADDR ∧ r'.rsi = BOOT_PARAMS_ADDR ∧
      (0 ≤ (worldWith 0 exitLsrIn).ioctlRet ((worldWith 0 exitLsrIn).calls.length + 3) →
        ∃ w', setVcpuRegs (worldWith 0 exitLsrIn) 5 = .ok w' ∧ w'.regs = r') :=
  ⟨by decide, setVcpuRegs_regs (worldWith 0 exitLsrIn) 5 (by decide)⟩

/-! ## The exit dispatch loop -/

/-- Whatever `KVM_RUN` returns, every pass through the loop issues it again. -/
theorem mainLoop_calls (n : Nat) : ∀ (w : World) (vcpuFd : Int),
    (mainLoop w vcpuFd n).calls = w.calls ++ List.replicate n (vcpuFd, Ioctl.KVM_RUN) := by
  induction n with
  | zero => intro w vcpuFd; simp [mainLoop]
  | succ n ih =>
    intro w vcpuFd
    have hstep : (mainStep w vcpuFd).calls = w.calls ++ [(vcpuFd, Ioctl.KVM_RUN)] := by
      simp only [mainStep, kvmRun, ioctl]
      split <;> rfl
    rw [mainLoop, ih, hstep, List.replicate_succ, List.append_assoc]
    rfl

/-- C9, the code in a world where the second `KVM_RUN` (the request number 13) fails:
`main` does not end; the exit left by the first `KVM_RUN`, an `OUT` of `'A'`, is
dispatched a second time, and `KVM_RUN` is issued a third time. -/
theorem main_failed_run_continues :
    worldRunFails.ioctlRet 13 < 0 ∧
    (main worldRunFails 1).toOption.map (fun w => (w.calls.drop 12, w.stdout))
      = some ([(5, .KVM_RUN)], [65]) ∧
    (main worldRunFails 2).toOption.map (fun w => (w.calls.drop 12, w.stdout))
      = some ([(5, .KVM_RUN), (5, .KVM_RUN)], [65, 65]) ∧
    (main worldRunFails 3).toOption.map (fun w => (w.calls.drop 12, w.stdout))
      = some ([(5, .KVM_RUN), (5, .KVM_RUN), (5, .KVM_RUN)], [65, 65, 65]) := by
  refine ⟨by decide, ?_, ?_, ?_⟩ <;> rfl

/-! ## The CPU feature set -/

/-- C10, the code at a vCPU that has run: `setVcpuCpuId` is applied, the vCPU is resumed
once, and `setVcpuCpuId` is applied again; the second application is not rejected and
passes the entries to `KVM_SET_CPUID2` again. -/
theorem setVcpuCpuId_twice :
    ∃ (w1 w2 : World),
      setVcpuCpuId (worldWith 0 exitLsrIn) 5 = .ok w1 ∧
      setVcpuCpuId (kvmRun w1 5) 5 = .ok w2 ∧
      w2.calls = [(3, .KVM_GET_SUPPORTED_CPUID 128),
        (5, .KVM_SET_CPUID2 ⟨1, (worldWith 0 exitLsrIn).supported⟩),
        (5, .KVM_RUN),
        (3, .KVM_GET_SUPPORTED_CPUID 128),
        (5, .KVM_SET_CPUID2 ⟨1, (worldWith 0 exitLsrIn).supported⟩)] ∧
      w2.cpuid = (worldWith 0 exitLsrIn).supported :=
  ⟨_, _, rfl, rfl, rfl, rfl⟩

/-- C10 as amended: the program keeps no record of the state of the vCPU.  In every
state, also after the first `kvmRun`, once `KVM_GET_SUPPORTED_CPUID` (capacity 128) has
succeeded `setVcpuCpuId` passes the entries to `KVM_SET_CPUID2`; when the hypervisor
fails that request the process ends through `err(1, "KVM_SET_CPUID2 failed")` with the
feature set of the vCPU as it was, and otherwise `setVcpuCpuId` returns and the entries
are the feature set of the vCPU. -/
theorem setVcpuCpuId_any_state (w : World) (vcpuFd : Int)
    (hget : 0 ≤ w.ioctlRet w.calls.length) :
    setVcpuCpuId w vcpuFd =
      if w.ioctlRet (w.calls.length + 1) < 0 then
        .error (⟨1, "KVM_SET_CPUID2 failed"⟩, { w with
          calls := w.calls ++ [(w.mKvmFd, .KVM_GET_SUPPORTED_CPUID 128),
            (vcpuFd, .KVM_SET_CPUID2
              ⟨(w.supported.take 128).length, w.supported.take 128⟩)] })
      else .ok { w with
        calls := w.calls ++ [(w.mKvmFd, .KVM_GET_SUPPORTED_CPUID 128),
          (vcpuFd, .KVM_SET_CPUID2
            ⟨(w.supported.take 128).length, w.supported.take 128⟩)],
        cpuid := w.supported.take 128 } := by
  have h0 : ¬ w.ioctlRet w.calls.length < 0 := by simpa using hget
  simp only [setVcpuCpuId, kvmGetSupportedCpuid, kvmSetCpuid2, ioctl, bind, Except.bind,
    h0, MAX_CPUID_ENTRIES, err, if_false, List.length_append, List.length_singleton]
  split <;> simp

/-- The witness of C10 as amended: a vCPU that has run once. -/
theorem setVcpuCpuId_any_state_witness :
    (5, Ioctl.KVM_RUN) ∈ (kvmRun (worldWith 0 exitLsrIn) 5).calls ∧
    0 ≤ (kvmRun (worldWith 0 exitLsrIn) 5).ioctlRet
      (kvmRun (worldWith 0 exitLsrIn) 5).calls.length ∧
    setVcpuCpuId (kvmRun (worldWith 0 exitLsrIn) 5) 5 =
      if (kvmRun (worldWith 0 exitLsrIn) 5).ioctlRet
          ((kvmRun (worldWith 0 exitLsrIn) 5).calls.length + 1) < 0 then
        .error (⟨1, "KVM_SET_CPUID2 failed"⟩, { kvmRun (worldWith 0 exitLsrIn) 5 with
          calls := (kvmRun (worldWith 0 exitLsrIn) 5).calls ++
            [((kvmRun (worldWith 0 exitLsrIn) 5).mKvmFd, .KVM_GET_SUPPORTED_CPUID 128),
             (5, .KVM_SET_CPUID2
              ⟨((kvmRun (worldWith 0 exitLsrIn) 5).supported.take 128).length,
               (kvmRun (worldWith 0 exitLsrIn) 5).supported.take 128⟩)] })
      else .ok { kvmRun (worldWith 0 exitLsrIn) 5 with
        calls := (kvmRun (worldWith 0 exitLsrIn) 5).calls ++
          [((kvmRun (worldWith 0 exitLsrIn) 5).mKvmFd, .KVM_GET_SUPPORTED_CPUID 128),
           (5, .KVM_SET_CPUID2
            ⟨((kvmRun (worldWith 0 exitLsrIn) 5).supported.take 128).length,
             (kvmRun (worldWith 0 exitLsrIn) 5).supported.take 128⟩)],
        cpuid := (kvmRun (worldWith 0 exitLsrIn) 5).supported.take 128 } :=
  ⟨by decide, by decide, setVcpuCpuId_any_state (kvmRun (worldWith 0 exitLsrIn) 5) 5
    (by decide)⟩

end Vermilion
